import Mathlib

/-!
Shallow embedding of `src/streamlit_app.py` (Bitcoin forecast and sentiment
dashboard). Machine integers do not occur; prices and sentiment scores are
decimals, embedded as rationals. Fallible code is embedded with `Option` and
`Except`. Each definition cites the source lines it translates.
-/

/-- JSON values, as needed by the quote-API response body (line 16 of the
source parses the response body as JSON). -/
inductive Json where
  | num : ℚ → Json
  | str : String → Json
  | obj : List (String × Json) → Json
  | null : Json

/-- Association lookup in a JSON object, the successful branch of a Python
dict `get`. -/
def jlookup : List (String × Json) → String → Option Json
  | [], _ => none
  | (k, v) :: t, key => if k = key then some v else jlookup t key

/-- Python `dict.get(key, default)` on the fields of a JSON object. -/
def dict_get (fields : List (String × Json)) (key : String) (d : Json) : Json :=
  match jlookup fields key with
  | some v => v
  | none => d

/-- Python exceptions that the embedded code can raise and does not catch. -/
inductive PyErr where
  | attributeError : PyErr
  | typeError : PyErr

/-- Outcome of one HTTP request to the quote endpoint, as observed by the
caller of `requests.get` (line 14): either a network-level failure (timeout,
connection error — a `requests.RequestException`), or a response with an HTTP
status code and a JSON body. -/
inductive FetchOutcome where
  | netFail : FetchOutcome
  | resp : ℕ → Json → FetchOutcome

/-- Lines 11-26 of the source: one `requests.get` call. `raise_for_status`
(line 15) raises `HTTPError` exactly when the status is in 400-599 (the
client-error and server-error ranges; statuses outside them, which the HTTP
layer delivers up to 999, do not raise), and both handlers (lines 18-26)
return `None`; the 429 branch only changes the warning message shown, not the
returned value. On a non-raising status the body is read as JSON and line 17
evaluates `data.get("bitcoin", \x7b\x7d).get("usd", None)`: when the outer
value or the value found under the asset key is not a dict, the second `.get`
raises an uncaught `AttributeError`. -/
def get_current_bitcoin_price : FetchOutcome → Except PyErr (Option Json)
  | .netFail => .ok none
  | .resp status body =>
    if 400 ≤ status ∧ status < 600 then .ok none
    else
      match body with
      | .obj fields =>
        match dict_get fields "bitcoin" (.obj []) with
        | .obj inner => .ok (jlookup inner "usd")
        | _ => .error .attributeError
      | _ => .error .attributeError

/-- The source issues exactly one HTTP request per call of
`get_current_bitcoin_price` (line 14, no loop, no sleep): given the script of
responses the server would hand out to successive requests, only the first is
ever consumed. Returns the call result and the number of requests issued. -/
def price_fetch_attempts (script : List FetchOutcome) : Except PyErr (Option Json) × ℕ :=
  match script with
  | [] => (.ok none, 0)
  | o :: _ => (get_current_bitcoin_price o, 1)

/-- Cache state of the live-price value: an optional stored value with the
time it was fetched. -/
structure PriceCache where
  entry : Option (ℚ × ℕ)
deriving DecidableEq

/-- TTL of the live-price cache, 300 seconds (line 10 of the source). -/
def cache_ttl : ℕ := 300

/-- Modelled from the spec: the TTL cache around `get_current_bitcoin_price`
is the framework decorator `st.cache_data(ttl=300)` at line 10, whose
implementation is not part of this repository. The spec states the invariant:
a cached quote is reused while `now - fetched_at < ttl`; expired entries
trigger a refetch. Given the cache state, the current time and the value a
fresh fetch would produce, returns the served value, the new cache state, and
whether a network call was made. -/
def cache_step (st : PriceCache) (now : ℕ) (live : ℚ) : ℚ × PriceCache × Bool :=
  match st.entry with
  | some (v, t) =>
    if now - t < cache_ttl then (v, ⟨some (v, t)⟩, false)
    else (live, ⟨some (live, now)⟩, true)
  | none => (live, ⟨some (live, now)⟩, true)

/-- A cell of a CSV file or of a loaded data frame. The embedding carries
typed cells; per-column dtype coercion is below the granularity any claim
needs. -/
inductive Cell where
  | str : String → Cell
  | num : ℚ → Cell
  | date : ℕ → Cell
  | na : Cell
deriving DecidableEq

/-- A parsed CSV file: a header row of column names and the data rows. -/
structure RawCsv where
  header : List String
  rows : List (List Cell)
deriving DecidableEq

/-- A loaded pandas data frame: remaining column names, the index column, and
the remaining cells of each row. -/
structure Frame where
  cols : List String
  index : List Cell
  rows : List (List Cell)
deriving DecidableEq

/-- What a CSV source can look like to `pd.read_csv`: the file can be absent
(raises `FileNotFoundError`), unreadable as tabular data (raises
`ParserError`), or readable with a header and rows. -/
inductive CsvSource where
  | missing : CsvSource
  | malformed : CsvSource
  | content : RawCsv → CsvSource

/-- Lines 29-41 of the source: `pd.read_csv(filename, parse_dates=...,
index_col="Date")` inside try/except, every handler returning `None`. When
the file reads, the column named `Date` is consumed as the index (its cells
leave the column set) and the remaining rows are returned in file order —
`read_csv` performs no sorting and no duplicate-index resolution. If no
`Date` column exists, `read_csv` raises `ValueError`, caught by the generic
handler (line 39), giving `None`. The `parse_dates` argument (present for the
price and forecast files, `None` for the sentiment file, line 52) only
affects the dtype of the index cells, which this embedding carries already
typed, so it is recorded but has no further effect. -/
def load_csv (src : CsvSource) (parse_dates : Bool) : Option Frame :=
  match src with
  | .missing => none
  | .malformed => none
  | .content c =>
    if "Date" ∈ c.header then
      let idx := c.header.indexOf "Date"
      some { cols := c.header.erase "Date"
             index := c.rows.map (fun r => r.getD idx Cell.na)
             rows := c.rows.map (fun r => r.eraseIdx idx) }
    else none

/-- Numeric value of a date cell, for stating order of the loaded index. -/
def dateVal : Cell → ℕ
  | .date d => d
  | _ => 0

/-- The dates of the index of a loaded frame, in order. -/
def indexDates (f : Frame) : List ℕ :=
  f.index.map dateVal

/-- Strictly ascending chain test: sorted ascending with all entries
distinct. -/
def chainAsc : List ℕ → Bool
  | [] => true
  | [_] => true
  | a :: b :: t => decide (a < b) && chainAsc (b :: t)

/-- Line 56 of the source: the columns the sentiment frame must carry. -/
def required_columns : List String := ["Date", "Tweet", "Avg Sentiment Score"]

/-- Line 59/64 of the source: `pd.DataFrame(columns=...)`, an empty frame
with the given columns and no rows. -/
def emptyFrame (cols : List String) : Frame :=
  { cols := cols, index := [], rows := [] }

/-- Lines 55-64 of the source. If loading returned `None`, a default empty
frame with the required columns is substituted (line 64). Otherwise the
membership test `required_columns.issubset(df.columns)` decides: when some
required column is missing, a warning is shown and the same default empty
frame is substituted (lines 58-59) — no error value, and nothing names which
columns were missing. When all required columns are present, line 61 runs
`df.rename(columns=\x7b"Avg Sentiment Score"\x7d, inplace=True)`, whose
argument is a set, not a mapping or function; pandas then calls the mapper,
raising an uncaught `TypeError`. -/
def ensure_sentiment (o : Option Frame) : Except PyErr Frame :=
  match o with
  | none => .ok (emptyFrame required_columns)
  | some df =>
    if required_columns.all (fun s => df.cols.contains s) then .error .typeError
    else .ok (emptyFrame required_columns)

/-- One row of the sentiment table: an optional date cell, the tweet text,
and the sentiment score (line 62 of the source replaces a missing score by 0,
so the score is always a number). -/
structure SentimentRecord where
  date : Cell
  text : String
  score : ℚ
deriving DecidableEq

/-- Line 115 of the source: `len(df[df["Avg Sentiment Score"] > 0])`. -/
def positive_tweets (rs : List SentimentRecord) : ℕ :=
  (rs.filter (fun r => 0 < r.score)).length

/-- Line 116 of the source: `len(df[df["Avg Sentiment Score"] == 0])`. -/
def neutral_tweets (rs : List SentimentRecord) : ℕ :=
  (rs.filter (fun r => r.score = 0)).length

/-- Line 117 of the source: `len(df[df["Avg Sentiment Score"] < 0])`. -/
def negative_tweets (rs : List SentimentRecord) : ℕ :=
  (rs.filter (fun r => r.score < 0)).length

/-- Line 127 of the source: `df["Avg Sentiment Score"].mean()`, the sum of
the scores divided by the number of rows. -/
def avg_sentiment (rs : List SentimentRecord) : ℚ :=
  (rs.map SentimentRecord.score).sum / rs.length

/-- The distribution counts and mean the dashboard derives (lines 115-134). -/
structure SentimentSummary where
  positive_count : ℕ
  neutral_count : ℕ
  negative_count : ℕ
  mean_score : ℚ
deriving DecidableEq

/-- Failure of the sentiment aggregation. -/
inductive AggError where
  | EmptyInput : AggError
deriving DecidableEq

/-- Lines 107-134 of the source: the whole sentiment section is guarded by
`if not df_sentiment.empty` (line 107); on an empty table no counts and no
mean are computed (line 153 shows a warning instead), embedded as a typed
`EmptyInput` failure. On a non-empty table the three counts and the mean are
produced. -/
def summarize (rs : List SentimentRecord) : Except AggError SentimentSummary :=
  if rs.isEmpty then .error .EmptyInput
  else .ok { positive_count := positive_tweets rs
             neutral_count := neutral_tweets rs
             negative_count := negative_tweets rs
             mean_score := avg_sentiment rs }

/-- The four choices of the sentiment dropdown (line 137). -/
inductive SClass where
  | All : SClass
  | Positive : SClass
  | Neutral : SClass
  | Negative : SClass

/-- Lines 138-143 of the source: `All` keeps the table unchanged; otherwise
the conditional chain keeps rows with score above 0 for `Positive`, below 0
for `Negative`, and equal to 0 for `Neutral`. -/
def filtered_df (rs : List SentimentRecord) : SClass → List SentimentRecord
  | .All => rs
  | .Positive => rs.filter (fun r => 0 < r.score)
  | .Neutral => rs.filter (fun r => r.score = 0)
  | .Negative => rs.filter (fun r => r.score < 0)

/-- pandas `DataFrame.tail(n)` on a sequence of rows: the last `n` rows, or
all of them when there are fewer than `n`. -/
def tail (n : ℕ) (xs : List (ℕ × ℚ)) : List (ℕ × ℚ) :=
  xs.drop (xs.length - n)

/-- Line 83 of the source: the table view `df_prices.tail(100)`, the only
windowing the dashboard applies to the history, with the hard-coded width
100. -/
def prices_table_view (prices : List (ℕ × ℚ)) : List (ℕ × ℚ) :=
  tail 100 prices

/-- Lines 90-99 of the source: `plot_forecast` receives the two optional
frames; when either is `None` it only warns (embedded as `none`), and
otherwise it plots the FULL actual series (line 94, `actual_df["Price"]` over
the whole index) against the FULL forecast series (line 95,
`forecast_df["Forecast"]` over the whole index). Each series is the list of
(date, value) pairs handed to `ax.plot`; no truncation of either input
occurs. -/
def plot_forecast (actual forecast : Option (List (ℕ × ℚ))) :
    Option (List (ℕ × ℚ) × List (ℕ × ℚ)) :=
  match actual, forecast with
  | some a, some f => some (a, f)
  | _, _ => none

/-- Written from the words of the spec, for comparison with the code: `align`
is said to return the last `window` points of history and the first `window`
points of forecast, either input being returned unshortened when it has fewer
than `window` points. -/
def align_spec (h f : List (ℕ × ℚ)) (w : ℕ) : List (ℕ × ℚ) × List (ℕ × ℚ) :=
  (if h.length < w then h else tail w h,
   if f.length < w then f else f.take w)

/-!
Theorems settling the claims.
-/

/-- C1: counterexample. The claim says the live-price operation returns None,
never raising, whenever the request fails or the expected numeric price field
is absent from the JSON response body. At the concrete 200 response whose
body binds the asset key to the bare number 5, the nested price field is
absent, yet line 17 raises an uncaught AttributeError instead of returning
None; and at a 304 response and a 600 response (both non-2xx statuses, yet
outside the 400-599 range where raise_for_status raises) with a well-formed
body, the function returns the price rather than None. -/
theorem c1_counterexample :
    get_current_bitcoin_price (.resp 200 (.obj [("bitcoin", .num 5)]))
      = .error .attributeError
    ∧ get_current_bitcoin_price
        (.resp 304 (.obj [("bitcoin", .obj [("usd", .num 42)])]))
      = .ok (some (.num 42))
    ∧ get_current_bitcoin_price
        (.resp 600 (.obj [("bitcoin", .obj [("usd", .num 42)])]))
      = .ok (some (.num 42)) :=
  ⟨rfl, rfl, rfl⟩

/-- C1 (amended): the live-price operation returns None, and never a
substitute numeric value such as 0, on every network-level failure, on every
HTTP status in 400-599 (the range where raise_for_status raises), and on
every non-raising response whose JSON object body lacks the asset key or
binds it to an object lacking the numeric price field. However, on a
non-raising non-2xx status (3xx, or 600-999) with a well-formed body the
function returns the parsed price, and when the asset key is bound to a
non-object value (or the body is not an object) the call raises an uncaught
AttributeError instead of returning None. -/
theorem c1_amended (s : ℕ) (body : Json) (fields inner : List (String × Json)) :
    get_current_bitcoin_price .netFail = .ok none
    ∧ (400 ≤ s → s < 600 → get_current_bitcoin_price (.resp s body) = .ok none)
    ∧ (¬ (400 ≤ s ∧ s < 600) → jlookup fields "bitcoin" = none →
        get_current_bitcoin_price (.resp s (.obj fields)) = .ok none)
    ∧ (¬ (400 ≤ s ∧ s < 600) → jlookup fields "bitcoin" = some (.obj inner) →
        jlookup inner "usd" = none →
        get_current_bitcoin_price (.resp s (.obj fields)) = .ok none) := by
  refine ⟨rfl, ?_, ?_, ?_⟩
  · intro hs1 hs2
    simp [get_current_bitcoin_price, hs1, hs2]
  · intro hs hl
    simp [get_current_bitcoin_price, hs, dict_get, hl, jlookup]
  · intro hs hl hu
    simp [get_current_bitcoin_price, hs, dict_get, hl, hu]

/-- C1 witness: the amended theorem evaluated at a 500 response, at a 200
response with an empty object body, and at a 700 response whose asset object
lacks the price field; all three return None. -/
theorem c1_witness :
    get_current_bitcoin_price (.resp 500 .null) = .ok none
    ∧ get_current_bitcoin_price (.resp 200 (.obj [])) = .ok none
    ∧ get_current_bitcoin_price (.resp 700 (.obj [("bitcoin", .obj [])]))
      = .ok none := by
  refine ⟨?_, ?_, ?_⟩
  · exact (c1_amended 500 .null [] []).2.1 (by decide) (by decide)
  · exact (c1_amended 200 .null [] []).2.2.1 (by decide) rfl
  · exact (c1_amended 700 .null [("bitcoin", .obj [])] []).2.2.2 (by decide) rfl rfl

/-- C2: a live-price request arriving while a prior successful fetch is
younger than the TTL of 300 seconds is served the stored value with no
network call and an unchanged cache; a request arriving once the TTL has
elapsed triggers a refetch that stores the fresh value. -/
theorem c2_cache_ttl (v live : ℚ) (t now : ℕ) :
    (now - t < cache_ttl →
      cache_step ⟨some (v, t)⟩ now live = (v, ⟨some (v, t)⟩, false))
    ∧ (cache_ttl ≤ now - t →
      cache_step ⟨some (v, t)⟩ now live = (live, ⟨some (live, now)⟩, true)) := by
  constructor
  · intro h
    simp [cache_step, h]
  · intro h
    simp [cache_step, Nat.not_lt.mpr h]

/-- C2 witness: with a value fetched at time 0, a request at time 100 is a
cache hit with no network call, and a request at time 400 refetches. -/
theorem c2_witness :
    cache_step ⟨some (5, 0)⟩ 100 7 = (5, ⟨some (5, 0)⟩, false)
    ∧ cache_step ⟨some (5, 0)⟩ 400 7 = (7, ⟨some (7, 400)⟩, true) :=
  ⟨(c2_cache_ttl 5 7 0 100).1 (by decide), (c2_cache_ttl 5 7 0 400).2 (by decide)⟩

/-- C3: counterexample. The claim says the fetcher retries on HTTP 429 with
backoff, up to three attempts. Against a script of three consecutive 429
responses the source issues exactly one request, not three; and against a
script in which the second attempt would have succeeded, the result is still
None, because no second request is ever made. -/
theorem c3_counterexample :
    price_fetch_attempts
        [.resp 429 (.obj []), .resp 429 (.obj []), .resp 429 (.obj [])]
      = (.ok none, 1)
    ∧ price_fetch_attempts
        [.resp 429 (.obj []),
         .resp 200 (.obj [("bitcoin", .obj [("usd", .num 100)])])]
      = (.ok none, 1)
    ∧ (1 : ℕ) ≠ 3 :=
  ⟨rfl, rfl, by decide⟩

/-- C3 (amended): when the quote endpoint answers HTTP 429, the fetcher makes
no retry and no backoff: it issues exactly one request and immediately
returns None, whatever responses the endpoint would have given to further
attempts. -/
theorem c3_amended (body : Json) (rest : List FetchOutcome) :
    price_fetch_attempts (.resp 429 body :: rest) = (.ok none, 1) :=
  rfl

/-- C4: counterexample. A valid CSV with the required columns, a configured
date column, and rows dated 2 then 1 loads successfully, but the returned
frame keeps the file order: its date index is the sequence [2, 1], which is
not sorted ascending. -/
theorem c4_counterexample :
    (load_csv (.content ⟨["Date", "Price"],
        [[Cell.date 2, Cell.num 20], [Cell.date 1, Cell.num 10]]⟩) true).map
      (fun f => chainAsc (indexDates f)) = some false :=
  rfl

/-- C4 (amended): loading a readable CSV with a Date column always returns
Ok, and the loader performs no sorting and no duplicate-date resolution: the
index is exactly the Date column of the file in file order, and every row of
the file is kept. -/
theorem c4_amended (c : RawCsv) (h : "Date" ∈ c.header) :
    ∃ f, load_csv (.content c) true = some f
      ∧ f.index = c.rows.map (fun r => r.getD (c.header.indexOf "Date") Cell.na)
      ∧ f.rows.length = c.rows.length := by
  refine ⟨{ cols := c.header.erase "Date"
            index := c.rows.map (fun r => r.getD (c.header.indexOf "Date") Cell.na)
            rows := c.rows.map (fun r => r.eraseIdx (c.header.indexOf "Date")) },
    ?_, rfl, by simp⟩
  simp [load_csv, h]

/-- C4 witness: the amended theorem evaluated at a two-row price CSV whose
rows share the date 1; both rows are kept, in file order. -/
theorem c4_witness :
    ∃ f, load_csv (.content ⟨["Date", "Price"],
          [[Cell.date 1, Cell.num 10], [Cell.date 1, Cell.num 11]]⟩) true = some f
      ∧ f.index = [Cell.date 1, Cell.date 1]
      ∧ f.rows.length = 2 := by
  obtain ⟨f, h1, h2, h3⟩ := c4_amended ⟨["Date", "Price"],
      [[Cell.date 1, Cell.num 10], [Cell.date 1, Cell.num 11]]⟩ (by decide)
  exact ⟨f, h1, by rw [h2]; rfl, by rw [h3]; rfl⟩

/-- C5: counterexample. For a loaded table missing the Tweet column, and for
one missing both the Tweet and the score column, the program does not return
an error naming the missing columns: it substitutes the same default empty
frame in both cases, so the result carries no information about which columns
were missing, and the substituted frame is not the loaded dataset. -/
theorem c5_counterexample :
    ensure_sentiment (some ⟨["Date", "Avg Sentiment Score"], [], []⟩)
      = .ok (emptyFrame required_columns)
    ∧ ensure_sentiment (some ⟨["Date"], [], []⟩)
      = .ok (emptyFrame required_columns)
    ∧ (⟨["Date", "Avg Sentiment Score"], [], []⟩ : Frame)
      ≠ emptyFrame required_columns :=
  ⟨rfl, rfl, by decide⟩

/-- C5 (amended): whenever at least one required column is missing from the
loaded sentiment table, or loading itself failed, the program warns and
substitutes the default empty frame carrying the three required column names;
no SchemaMismatch error is produced and the missing columns are not named. -/
theorem c5_amended (df : Frame)
    (h : ∃ s ∈ required_columns, s ∉ df.cols) :
    ensure_sentiment (some df) = .ok (emptyFrame required_columns)
    ∧ ensure_sentiment none = .ok (emptyFrame required_columns) := by
  constructor
  · simp [ensure_sentiment]
    exact h
  · rfl

/-- C5 witness: the amended theorem evaluated at a frame whose columns are
Date and Extra, missing Tweet and the score column. -/
theorem c5_witness :
    ensure_sentiment (some ⟨["Date", "Extra"], [], []⟩)
      = .ok (emptyFrame required_columns) :=
  (c5_amended ⟨["Date", "Extra"], [], []⟩ ⟨"Tweet", by decide, by decide⟩).1

/-- C6: for every non-empty sentiment table, the summary counts exactly the
records with score strictly above 0, exactly equal to 0 (no epsilon band),
and strictly below 0, and the mean is the arithmetic mean of all scores; in
particular the single record with score 0 yields counts (0, 1, 0) and
mean 0. -/
theorem c6_summarize_counts (rs : List SentimentRecord) (h : rs ≠ []) :
    summarize rs = .ok
      { positive_count := rs.countP (fun r => 0 < r.score)
        neutral_count := rs.countP (fun r => r.score = 0)
        negative_count := rs.countP (fun r => r.score < 0)
        mean_score := (rs.map SentimentRecord.score).sum / rs.length }
    ∧ summarize [⟨Cell.na, "", 0⟩] = .ok ⟨0, 1, 0, 0⟩ := by
  constructor
  · rw [summarize, if_neg (by simpa using h)]
    simp [positive_tweets, neutral_tweets, negative_tweets, avg_sentiment,
      List.countP_eq_length_filter]
  · rw [summarize, if_neg (by decide)]
    simp [positive_tweets, neutral_tweets, negative_tweets, avg_sentiment]

/-- C6 witness: the summary of the single record with score 0 has counts
(0, 1, 0) and mean 0. -/
theorem c6_witness : summarize [⟨Cell.na, "", 0⟩] = .ok ⟨0, 1, 0, 0⟩ :=
  (c6_summarize_counts [⟨Cell.na, "", 0⟩] (by decide)).2

/-- C7: applied to the empty sentiment table, the aggregation yields the
typed EmptyInput failure — it produces no NaN, no 0, and no summary value. -/
theorem c7_summarize_empty : summarize [] = .error .EmptyInput :=
  rfl

theorem filter_sign_perm (rs : List SentimentRecord) :
    List.Perm (rs.filter (fun r => 0 < r.score) ++ rs.filter (fun r => r.score = 0)
        ++ rs.filter (fun r => r.score < 0)) rs := by
  induction rs with
  | nil => simp
  | cons r t ih =>
    rcases lt_trichotomy r.score 0 with hneg | hzero | hpos
    · have h1 : ¬ 0 < r.score := not_lt.mpr hneg.le
      have h2 : ¬ r.score = 0 := ne_of_lt hneg
      simp only [List.filter_cons, decide_eq_true_eq, if_neg h1, if_neg h2,
        if_pos hneg]
      exact List.perm_middle.trans (ih.cons r)
    · have h1 : ¬ 0 < r.score := by rw [hzero]; exact lt_irrefl 0
      have h2 : ¬ r.score < 0 := by rw [hzero]; exact lt_irrefl 0
      simp only [List.filter_cons, decide_eq_true_eq, if_neg h1, if_pos hzero,
        if_neg h2]
      rw [List.append_assoc, List.cons_append]
      exact List.perm_middle.trans ((List.append_assoc _ _ _ ▸ ih).cons r)
    · have h1 : r.score ≠ 0 := ne_of_gt hpos
      have h2 : ¬ r.score < 0 := not_lt.mpr hpos.le
      simp only [List.filter_cons, decide_eq_true_eq, if_pos hpos, if_neg h1,
        if_neg h2, List.cons_append]
      exact ih.cons r

/-- C8: the dropdown filter with All returns the table unchanged, and the
Positive, Neutral and Negative views partition the table exactly: appended
together they are a permutation of the input (no omission, no duplication),
and no record belongs to two distinct views. -/
theorem c8_filter_partition (rs : List SentimentRecord) :
    filtered_df rs .All = rs
    ∧ List.Perm (filtered_df rs .Positive ++ filtered_df rs .Neutral
        ++ filtered_df rs .Negative) rs
    ∧ (∀ r, r ∈ filtered_df rs .Positive →
        r ∉ filtered_df rs .Neutral ∧ r ∉ filtered_df rs .Negative)
    ∧ (∀ r, r ∈ filtered_df rs .Neutral → r ∉ filtered_df rs .Negative) := by
  refine ⟨rfl, filter_sign_perm rs, ?_, ?_⟩
  · intro r hr
    have hp : 0 < r.score := of_decide_eq_true (List.mem_filter.mp hr).2
    constructor
    · intro hm
      have h0 : r.score = 0 := of_decide_eq_true (List.mem_filter.mp hm).2
      exact absurd h0 (ne_of_gt hp)
    · intro hm
      have hn : r.score < 0 := of_decide_eq_true (List.mem_filter.mp hm).2
      exact absurd hn (not_lt.mpr hp.le)
  · intro r hr hm
    have h0 : r.score = 0 := of_decide_eq_true (List.mem_filter.mp hr).2
    have hn : r.score < 0 := of_decide_eq_true (List.mem_filter.mp hm).2
    rw [h0] at hn
    exact lt_irrefl 0 hn

/-- C9: counterexample. The claim says the program pairs the last window
points of history with the first window points of forecast. At history
[(1,100),(2,110)], forecast [(3,115),(4,120)] and window 1 that pairing would
be ([(2,110)], [(3,115)]), but the program plots the full history against the
full forecast: neither series is truncated, so the displayed pair differs
from the claimed alignment. -/
theorem c9_counterexample :
    plot_forecast (some [(1, 100), (2, 110)]) (some [(3, 115), (4, 120)])
      = some ([(1, 100), (2, 110)], [(3, 115), (4, 120)])
    ∧ align_spec [(1, 100), (2, 110)] [(3, 115), (4, 120)] 1
      = ([(2, 110)], [(3, 115)])
    ∧ (([(1, 100), (2, 110)], [(3, 115), (4, 120)]) :
        List (ℕ × ℚ) × List (ℕ × ℚ)) ≠ ([(2, 110)], [(3, 115)]) :=
  ⟨rfl, rfl, by decide⟩

/-- C9 (amended): the program has no window-parameterized alignment. The
history table shows the last 100 points of the history, all of them
unshortened when there are fewer than 100 — the table view is always a suffix
of the history of length min 100 len — and each forecast chart plots the full
history series against the full forecast series, truncating neither. -/
theorem c9_amended (h f : List (ℕ × ℚ)) :
    plot_forecast (some h) (some f) = some (h, f)
    ∧ (prices_table_view h).length = min 100 h.length
    ∧ (h.length ≤ 100 → prices_table_view h = h)
    ∧ (prices_table_view h).IsSuffix h := by
  refine ⟨rfl, ?_, ?_, List.drop_suffix _ _⟩
  · simp only [prices_table_view, tail, List.length_drop]
    omega
  · intro hle
    simp [prices_table_view, tail, Nat.sub_eq_zero_of_le hle]

/-- C9 witness: a one-point history and one-point forecast are displayed in
full, and the short history is shown unshortened by the table view. -/
theorem c9_witness :
    plot_forecast (some [(1, 5)]) (some [(2, 6)]) = some ([(1, 5)], [(2, 6)])
    ∧ prices_table_view [(1, 5)] = [(1, 5)] :=
  ⟨(c9_amended [(1, 5)] [(2, 6)]).1, (c9_amended [(1, 5)] [(2, 6)]).2.2.1 (by decide)⟩

/-- C10: every frame returned by a successful load has consumed the Date
column of the file as its index — with date parsing enabled or disabled
alike — so Date is never among the returned columns, and consequently the
required-column check on the sentiment frame fails for any CSV whose only
Date column was consumed as the index and the default empty frame is
substituted. -/
theorem c10_date_index (c : RawCsv) (pd : Bool) (h : c.header.count "Date" = 1) :
    "Date" ∉ ((load_csv (.content c) pd).elim [] Frame.cols)
    ∧ load_csv (.content c) pd ≠ none
    ∧ ensure_sentiment (load_csv (.content c) pd) = .ok (emptyFrame required_columns) := by
  have hmem : "Date" ∈ c.header :=
    List.count_pos_iff.mp (by rw [h]; exact Nat.one_pos)
  have hnot : "Date" ∉ c.header.erase "Date" :=
    List.count_eq_zero.mp (by rw [List.count_erase_self, h])
  have hload : load_csv (.content c) pd = some
      { cols := c.header.erase "Date"
        index := c.rows.map (fun r => r.getD (c.header.indexOf "Date") Cell.na)
        rows := c.rows.map (fun r => r.eraseIdx (c.header.indexOf "Date")) } := by
    simp [load_csv, hmem]
  refine ⟨?_, ?_, ?_⟩
  · rw [hload]
    simpa using hnot
  · rw [hload]
    simp
  · rw [hload]
    simp [ensure_sentiment]
    exact ⟨"Date", by simp [required_columns], hnot⟩

/-- C10 witness: a sentiment CSV with exactly the three required columns,
loaded with date parsing disabled, still loses its Date column to the index,
and the required-column check fails, substituting the default empty frame. -/
theorem c10_witness :
    "Date" ∉ ((load_csv (.content ⟨["Date", "Tweet", "Avg Sentiment Score"],
        [[Cell.date 1, Cell.str "hello", Cell.num 1]]⟩) false).elim [] Frame.cols)
    ∧ ensure_sentiment (load_csv (.content ⟨["Date", "Tweet", "Avg Sentiment Score"],
        [[Cell.date 1, Cell.str "hello", Cell.num 1]]⟩) false)
      = .ok (emptyFrame required_columns) := by
  have h := c10_date_index ⟨["Date", "Tweet", "Avg Sentiment Score"],
      [[Cell.date 1, Cell.str "hello", Cell.num 1]]⟩ false (by decide)
  exact ⟨h.1, h.2.2⟩
